import Mathlib

/-!
Shallow embedding of the `@healthchecks-ts/accessibility` core
(`src/types.ts`, `src/constants.ts`, `src/utils.ts`, the checker classes and
the `AccessibilityHealthChecker` / `BrowserManager` orchestration code), with
theorems settling the frozen claims about it.

Conventions of the embedding:
* JS numbers that are always integers in the code are `Int` (or `Nat` when the
  code can only produce non-negative values, e.g. list lengths).
* A rejected promise / thrown exception is `Except.error`; `Promise.all` over a
  list of settled outcomes is the `promiseAll` fold below (it fails iff some
  element failed; the list-order choice of *which* error is reported is
  irrelevant to the claims, which involve at most one failure).
* Browser/DOM effects (navigation, `page.evaluate`) are external inputs: a
  checker's DOM scan is represented by the list of raw findings its
  `page.evaluate` call returned, and the issue-mapping code that follows the
  scan is embedded faithfully.
-/

namespace Accessibility

/-- `WcagLevel` enum of `src/types.ts`. -/
inductive WcagLevel
  | A
  | AA
  | AAA
deriving DecidableEq, Repr

/-- `Severity` enum of `src/types.ts` (`error` / `warning` / `info`). -/
inductive Severity
  | error
  | warning
  | info
deriving DecidableEq, Repr

/-- `CheckType` enum of `src/types.ts` — eight known checker types. -/
inductive CheckType
  | altText
  | colorContrast
  | headingStructure
  | ariaAttributes
  | keyboardNavigation
  | formLabels
  | focusIndicators
  | landmarkRegions
deriving DecidableEq, Repr

/-- `Object.values(CheckType)`: the eight enum members in declaration order. -/
def CheckType.all : List CheckType :=
  [.altText, .colorContrast, .headingStructure, .ariaAttributes,
   .keyboardNavigation, .formLabels, .focusIndicators, .landmarkRegions]

/-- The three severities in declaration order. -/
def Severity.all : List Severity := [.error, .warning, .info]

/-- `WCAG_REFERENCES` table of `src/constants.ts`: a clause per
`(checkerType, wcagLevel)` pair, `none` embedding the `null` entry. -/
def WCAG_REFERENCES : CheckType → WcagLevel → Option String
  | .altText, .A => some "1.1.1"
  | .altText, .AA => some "1.1.1"
  | .altText, .AAA => some "1.1.1"
  | .colorContrast, .A => none
  | .colorContrast, .AA => some "1.4.3"
  | .colorContrast, .AAA => some "1.4.6"
  | .headingStructure, .A => some "1.3.1"
  | .headingStructure, .AA => some "1.3.1"
  | .headingStructure, .AAA => some "1.3.1"
  | .ariaAttributes, .A => some "4.1.2"
  | .ariaAttributes, .AA => some "4.1.2"
  | .ariaAttributes, .AAA => some "4.1.2"
  | .keyboardNavigation, .A => some "2.1.1"
  | .keyboardNavigation, .AA => some "2.1.1"
  | .keyboardNavigation, .AAA => some "2.1.3"
  | .formLabels, .A => some "1.3.1"
  | .formLabels, .AA => some "1.3.1"
  | .formLabels, .AAA => some "1.3.1"
  | .focusIndicators, .A => some "2.4.7"
  | .focusIndicators, .AA => some "2.4.7"
  | .focusIndicators, .AAA => some "2.4.7"
  | .landmarkRegions, .A => some "1.3.1"
  | .landmarkRegions, .AA => some "1.3.1"
  | .landmarkRegions, .AAA => some "1.3.1"

/-- `getWcagReference` of `src/utils.ts`: `WCAG_REFERENCES[type][level]`. -/
def getWcagReference (type : CheckType) (level : WcagLevel) : Option String :=
  WCAG_REFERENCES type level

/-- `getWcagUrl` of `src/utils.ts`. -/
def getWcagUrl (reference : String) : String :=
  "https://www.w3.org/WAI/WCAG21/Understanding/" ++ reference ++ ".html"

/-- `AccessibilityIssue` of `src/types.ts`.  The optional `element` descriptor
and the `location` record carry no information any claim depends on beyond
their presence; `element` is kept as an opaque optional selector string and
`location` as its `xpath` string. -/
structure AccessibilityIssue where
  id : String
  type : CheckType
  severity : Severity
  wcagLevel : WcagLevel
  wcagReference : String
  message : String
  description : String
  element : Option String
  locationXpath : String
  suggestedFix : Option String
  helpUrl : Option String
deriving DecidableEq, Repr

/-- `createAccessibilityIssue` of `src/utils.ts`.  `generateIssueId` is
time-and-random based, so the generated id is an explicit input here.
JS truthiness notes embedded: `wcagReference || 'N/A'` and
`if (wcagReference)` treat `null` (and the never-occurring empty string) as
absent; `if (suggestedFix)` drops an empty-string fix; `location?.xpath || ''`
defaults the xpath to the empty string. -/
def createAccessibilityIssue (issueId : String) (type : CheckType)
    (severity : Severity) (wcagLevel : WcagLevel)
    (message description : String) (element : Option String)
    (locationXpath : Option String) (suggestedFix : Option String) :
    AccessibilityIssue :=
  let wcagReference := getWcagReference type wcagLevel
  { id := issueId
    type := type
    severity := severity
    wcagLevel := wcagLevel
    wcagReference := wcagReference.getD "N/A"
    message := message
    description := description
    element := element
    locationXpath := locationXpath.getD ""
    suggestedFix := suggestedFix.filter (fun s => s ≠ "")
    helpUrl := wcagReference.map getWcagUrl }

/-- The per-severity weight table inside `calculateScore` (`src/utils.ts`):
error = 10, warning = 5, info = 1. -/
def severityWeight : Severity → Int
  | .error => 10
  | .warning => 5
  | .info => 1

/-- `calculateScore` of `src/utils.ts`.  `Math.round` is applied to
`Math.max(0, 100 - totalPenalty)`, an integer, so it is the identity and is
not re-modelled. -/
def calculateScore (issues : List AccessibilityIssue) : Int :=
  if issues.length = 0 then 100
  else
    let totalPenalty :=
      issues.foldl (fun total issue => total + severityWeight issue.severity) 0
    max 0 (100 - totalPenalty)

/-- `AccessibilityHealthChecker.isWcagCompliant` (orchestrator source):
`!issues.some(i => i.wcagLevel === level && i.severity === Severity.ERROR)`. -/
def isWcagCompliant (issues : List AccessibilityIssue) (level : WcagLevel) :
    Bool :=
  !(issues.any fun issue =>
    issue.wcagLevel == level && issue.severity == Severity.error)

/-- `HealthCheckConfig` of `src/types.ts`, restricted to the fields the
embedded core reads: `wcagLevel`, the `checks.enabled` / `checks.disabled`
sets, the page `timeout` and the `concurrent` limit.  The output/browser
blocks and the two float `thresholds` are consumed only by external
collaborators (reporters, Playwright, the in-page DOM scans). -/
structure HealthCheckConfig where
  wcagLevel : WcagLevel
  checksEnabled : List CheckType
  checksDisabled : List CheckType
  timeout : Int
  concurrent : Int
deriving Repr

/-- `CheckerResult` of `src/types.ts`. -/
structure CheckerResult where
  type : CheckType
  issues : List AccessibilityIssue
  duration : Int
deriving Repr

/-- `PageHealthReport` of `src/types.ts`.  The severity and type buckets are
the literal objects built in `checkPage`: an association list with one entry
per severity (3) resp. per member of `Object.values(CheckType)` (8).  The
`timestamp` (`new Date()`) is not modelled. -/
structure PageHealthReport where
  url : String
  duration : Int
  totalIssues : Nat
  issuesBySeverity : List (Severity × Nat)
  issuesByType : List (CheckType × Nat)
  wcagCompliance : WcagLevel → Bool
  issues : List AccessibilityIssue
  score : Int

/-- The aggregation tail of `AccessibilityHealthChecker.checkPage`: from the
concatenated issue list to the returned `PageHealthReport` (statistics,
compliance map, score). -/
def buildPageReport (url : String) (duration : Int)
    (allIssues : List AccessibilityIssue) : PageHealthReport :=
  { url := url
    duration := duration
    totalIssues := allIssues.length
    issuesBySeverity := Severity.all.map fun s =>
      (s, (allIssues.filter fun issue => issue.severity == s).length)
    issuesByType := CheckType.all.map fun t =>
      (t, (allIssues.filter fun issue => issue.type == t).length)
    wcagCompliance := fun level => isWcagCompliant allIssues level
    issues := allIssues
    score := calculateScore allIssues }

/-- `Promise.all` over already-settled outcomes: succeeds with the results in
input order iff every outcome succeeded, otherwise fails. -/
def promiseAll {ε α : Type} : List (Except ε α) → Except ε (List α)
  | [] => .ok []
  | .error e :: _ => .error e
  | .ok a :: rest => (promiseAll rest).map (fun tail => a :: tail)

/-- The checker-running core of `AccessibilityHealthChecker.checkPage`, after
navigation and stabilization succeeded: `outcomes` are the settled results of
the enabled checkers' `check` calls (in registry order); `Promise.all` over
them either rejects — failing the page check — or yields the results whose
issue lists are concatenated (`flatMap`) and aggregated. -/
def checkPage (url : String) (duration : Int)
    (outcomes : List (Except String CheckerResult)) :
    Except String PageHealthReport :=
  (promiseAll outcomes).map fun checkerResults =>
    buildPageReport url duration
      (checkerResults.map CheckerResult.issues).flatten

/-- A raw finding as returned by a checker's `page.evaluate` DOM scan, before
it is mapped through `createAccessibilityIssue`: the severity string the scan
chose, the message/description/fix texts and an element selector. -/
structure RawFinding where
  severity : Severity
  message : String
  description : String
  element : Option String
  suggestedFix : Option String
deriving Repr

/-- Issue-mapping tail of `AltTextChecker.check`: each raw finding becomes an
issue of type `alt-text` with `severity === 'error' ? ERROR : WARNING` and the
fixed level `WcagLevel.A`; the run configuration is ignored (`_config`). -/
def altTextCheck (_config : HealthCheckConfig)
    (findings : List (String × RawFinding)) (duration : Int) : CheckerResult :=
  { type := .altText
    issues := findings.map fun idf =>
      createAccessibilityIssue idf.1 .altText
        (if idf.2.severity == .error then .error else .warning)
        .A idf.2.message idf.2.description idf.2.element none
        idf.2.suggestedFix
    duration := duration }

/-- Issue-mapping tail of `ColorContrastChecker.check`: type `color-contrast`,
`severity === 'error' ? ERROR : WARNING`, and level `config.wcagLevel` — the
one checker whose issue level follows the run's configured target level. -/
def colorContrastCheck (config : HealthCheckConfig)
    (findings : List (String × RawFinding)) (duration : Int) : CheckerResult :=
  { type := .colorContrast
    issues := findings.map fun idf =>
      createAccessibilityIssue idf.1 .colorContrast
        (if idf.2.severity == .error then .error else .warning)
        config.wcagLevel idf.2.message idf.2.description idf.2.element none
        idf.2.suggestedFix
    duration := duration }

/-- Issue-mapping tail of `HeadingStructureChecker.check`: type
`heading-structure`, the three-way severity translation, fixed level `A`. -/
def headingStructureCheck (_config : HealthCheckConfig)
    (findings : List (String × RawFinding)) (duration : Int) : CheckerResult :=
  { type := .headingStructure
    issues := findings.map fun idf =>
      createAccessibilityIssue idf.1 .headingStructure
        (if idf.2.severity == .error then .error
         else if idf.2.severity == .warning then .warning else .info)
        .A idf.2.message idf.2.description idf.2.element none
        idf.2.suggestedFix
    duration := duration }

/-- Issue-mapping tail of `AriaAttributesChecker.check`: type
`aria-attributes`, `error`-or-`warning` severity, fixed level `A`. -/
def ariaAttributesCheck (_config : HealthCheckConfig)
    (findings : List (String × RawFinding)) (duration : Int) : CheckerResult :=
  { type := .ariaAttributes
    issues := findings.map fun idf =>
      createAccessibilityIssue idf.1 .ariaAttributes
        (if idf.2.severity == .error then .error else .warning)
        .A idf.2.message idf.2.description idf.2.element none
        idf.2.suggestedFix
    duration := duration }

/-- Issue-mapping tail of `FormLabelsChecker.check`: type `form-labels`,
`error`-or-`warning` severity, fixed level `A`. -/
def formLabelsCheck (_config : HealthCheckConfig)
    (findings : List (String × RawFinding)) (duration : Int) : CheckerResult :=
  { type := .formLabels
    issues := findings.map fun idf =>
      createAccessibilityIssue idf.1 .formLabels
        (if idf.2.severity == .error then .error else .warning)
        .A idf.2.message idf.2.description idf.2.element none
        idf.2.suggestedFix
    duration := duration }

/-- An entry of the checker registry: the declared `type` tag together with
the embedded issue-mapping tail of its `check` method. -/
structure AccessibilityChecker where
  type : CheckType
  check : HealthCheckConfig → List (String × RawFinding) → Int → CheckerResult

/-- `ALL_CHECKERS` of `src/checkers/index.ts`: the static ordered registry of
five checker instances (three `CheckType` members have no checker). -/
def ALL_CHECKERS : List AccessibilityChecker :=
  [⟨.altText, altTextCheck⟩,
   ⟨.colorContrast, colorContrastCheck⟩,
   ⟨.headingStructure, headingStructureCheck⟩,
   ⟨.ariaAttributes, ariaAttributesCheck⟩,
   ⟨.formLabels, formLabelsCheck⟩]

/-- The registry filter of `AccessibilityHealthChecker.checkPage`:
`ALL_CHECKERS.filter(c => enabled.includes(c.type) && !disabled.includes(c.type))`. -/
def enabledCheckers (config : HealthCheckConfig) : List AccessibilityChecker :=
  ALL_CHECKERS.filter fun checker =>
    config.checksEnabled.contains checker.type &&
      !(config.checksDisabled.contains checker.type)

/-- The launched/unlaunched state of `BrowserManager` (`browser.ts`): whether
its `browser` and `context` fields are non-null. -/
structure BrowserManager where
  browserLaunched : Bool
  contextLaunched : Bool
deriving DecidableEq, Repr

/-- `BrowserManager.launch`: assigns both `browser` and `context`. -/
def BrowserManager.launch (_bm : BrowserManager) : BrowserManager :=
  { browserLaunched := true, contextLaunched := true }

/-- `BrowserManager.close`: closes and nulls `context`, then `browser`
(idempotent — a no-op on the already-unlaunched state). -/
def BrowserManager.close (_bm : BrowserManager) : BrowserManager :=
  { browserLaunched := false, contextLaunched := false }

/-- `BrowserManager.isLaunched`: `browser !== null && context !== null`. -/
def BrowserManager.isLaunched (bm : BrowserManager) : Bool :=
  bm.browserLaunched && bm.contextLaunched

/-- `AccessibilityHealthChecker.chunkArray`, for chunk sizes ≥ 1 where the JS
`for (let i = 0; i < array.length; i += chunkSize)` loop terminates: each
iteration pushes `array.slice(i, i + chunkSize)`.  Recursion is bounded by a
fuel argument; `chunkArray` supplies `array.length`, which suffices for every
chunk size ≥ 1 (`chunkArrayGo_join` below).  The k = 0 / k < 0 divergence of
the JS loop is modelled separately by `chunkLoopIndex`. -/
def chunkArrayGo {α : Type} (chunkSize : Nat) :
    Nat → List α → List (List α)
  | _, [] => []
  | 0, _ :: _ => []
  | fuel + 1, x :: xs =>
    (x :: xs).take chunkSize :: chunkArrayGo chunkSize fuel ((x :: xs).drop chunkSize)

/-- `AccessibilityHealthChecker.chunkArray` (chunk size ≥ 1). -/
def chunkArray {α : Type} (array : List α) (chunkSize : Nat) :
    List (List α) :=
  chunkArrayGo chunkSize array.length array

/-- The index variable of the `chunkArray` loop
`for (let i = 0; i < array.length; i += chunkSize)` after `n` iterations:
it starts at 0 and each iteration adds `chunkSize` (an `Int`, so that
non-positive chunk sizes are representable). -/
def chunkLoopIndex (chunkSize : Int) (n : Nat) : Int :=
  n * chunkSize

/-- The `chunkArray` loop terminates on an array of length `len` iff after
some number of iterations the guard `i < array.length` fails. -/
def chunkLoopTerminates (len chunkSize : Int) : Prop :=
  ∃ n : Nat, ¬ chunkLoopIndex chunkSize n < len

/-- The per-batch body of `AccessibilityHealthChecker.checkUrls`: for each
chunk in order, `Promise.all` of one page-check per URL of the chunk (`audit`
maps a URL to its settled page-check outcome — the browser work is external);
a failed chunk aborts the run, a successful chunk's reports are appended in
chunk order before the next chunk starts. -/
def collectChunks (audit : String → Except String PageHealthReport) :
    List (List String) → Except String (List PageHealthReport)
  | [] => .ok []
  | chunk :: rest =>
    match promiseAll (chunk.map audit) with
    | .error e => .error e
    | .ok pageReports =>
      (collectChunks audit rest).map fun tail => pageReports ++ tail

/-- The `pages` sequence a `checkUrls` run produces when every page check
succeeds: chunk the URLs, audit each chunk, concatenate in order. -/
def checkUrlsPages (audit : String → PageHealthReport)
    (urls : List String) (concurrent : Nat) : List PageHealthReport :=
  ((chunkArray urls concurrent).map fun chunk => chunk.map audit).flatten

/-- `HealthCheckReport` summary of `src/types.ts` (timestamp not modelled). -/
structure HealthCheckSummary where
  totalPages : Nat
  totalIssues : Nat
  overallScore : Int
deriving Repr

/-- `Math.round(a / b)` for integer `a ≥ 0` and `b > 0` (the overall-score
mean: per-page scores are integers in [0, 100]). -/
def roundDiv (a b : Int) : Int :=
  (2 * a + b) / (2 * b)

/-- The aggregate summary computed at the end of `checkUrls`: page count,
summed issue totals, and the rounded mean score (100 for zero pages). -/
def buildSummary (pageReports : List PageHealthReport) : HealthCheckSummary :=
  { totalPages := pageReports.length
    totalIssues := (pageReports.map PageHealthReport.totalIssues).sum
    overallScore :=
      if pageReports.length > 0 then
        roundDiv (pageReports.map PageHealthReport.score).sum pageReports.length
      else 100 }

/-- `AccessibilityHealthChecker.checkUrls` as a state transformer on the
`BrowserManager` state: lazily launch, then inside `try`: chunk the URLs by
`config.concurrent`, collect the batches sequentially, build the aggregate
report and run the reporters (`reporterOutcome` is the settled result of
`generateReports`); the `finally` block closes the browser manager on every
path before the result — value or rethrown error — reaches the caller. -/
def checkUrlsRun (bm : BrowserManager) (config : HealthCheckConfig)
    (audit : String → Except String PageHealthReport)
    (reporterOutcome : Except String Unit) (urls : List String) :
    Except String (HealthCheckSummary × List PageHealthReport) ×
      BrowserManager :=
  let bm1 := if bm.isLaunched then bm else bm.launch
  let body :=
    match collectChunks audit (chunkArray urls config.concurrent.toNat) with
    | .error e => .error e
    | .ok pageReports =>
      match reporterOutcome with
      | .error e => .error e
      | .ok _ => .ok (buildSummary pageReports, pageReports)
  (body, bm1.close)

/-- `AccessibilityHealthChecker.checkUrl` as a state transformer: lazily
launch, create a page, run `checkPage` (its settled outcome is `audit url`),
close the page (page handles are not part of the `BrowserManager` state) —
and do *not* close the browser manager. -/
def checkUrlRun (bm : BrowserManager)
    (audit : String → Except String PageHealthReport) (url : String) :
    Except String PageHealthReport × BrowserManager :=
  let bm1 := if bm.isLaunched then bm else bm.launch
  (audit url, bm1)

/-! Concrete sample values used by witnesses. -/

/-- A sample issue of the given severity, built by the issue constructor. -/
def sampleIssue (s : Severity) : AccessibilityIssue :=
  createAccessibilityIssue "issue-1700000000000-abc" .altText s .A
    "Image missing alt attribute"
    "All images must have an alt attribute for screen readers" none none none

/-- A sample configuration (the default checker sets, level AA). -/
def sampleConfig : HealthCheckConfig :=
  { wcagLevel := .AA
    checksEnabled := CheckType.all
    checksDisabled := []
    timeout := 30000
    concurrent := 3 }

/-- A second sample configuration differing in its target level. -/
def sampleConfigAAA : HealthCheckConfig :=
  { sampleConfig with wcagLevel := .AAA }

/-- A sample successful checker result carrying one error issue. -/
def sampleResultA : CheckerResult :=
  { type := .altText, issues := [sampleIssue .error], duration := 1 }

/-- A sample successful checker result carrying no issues. -/
def sampleResultB : CheckerResult :=
  { type := .formLabels, issues := [], duration := 1 }

/-- A sample raw DOM-scan finding. -/
def sampleFinding : RawFinding :=
  { severity := .warning
    message := "Alt text may be redundant or non-descriptive"
    description := "Alt text should describe the content, not state that it is an image"
    element := some "img.logo"
    suggestedFix := some "Replace with descriptive text" }

/-! Helper lemmas. -/

/-- The penalty fold of `calculateScore` computes the sum of the per-issue
severity weights. -/
lemma foldl_penalty (issues : List AccessibilityIssue) (a : Int) :
    issues.foldl (fun total issue => total + severityWeight issue.severity) a =
      a + (issues.map fun issue => severityWeight issue.severity).sum := by
  induction issues generalizing a with
  | nil => simp
  | cons issue rest ih => simp [ih, add_assoc]

/-- `calculateScore` in closed form, covering the empty-list early return. -/
lemma calculateScore_eq (issues : List AccessibilityIssue) :
    calculateScore issues =
      max 0 (100 - (issues.map fun issue => severityWeight issue.severity).sum) := by
  unfold calculateScore
  split
  · next h =>
    rw [List.length_eq_zero] at h
    simp [h]
  · rw [foldl_penalty]
    simp

/-- Summing a pointwise sum of `Nat`-valued maps splits. -/
lemma sum_map_split {α : Type} (l : List α) (f g : α → Nat) :
    (l.map fun x => f x + g x).sum = (l.map f).sum + (l.map g).sum := by
  induction l with
  | nil => rfl
  | cons x xs ih => simp [ih]; omega

/-- Counting a filtered cons. -/
lemma filter_count_cons {α : Type} (p : α → Bool) (x : α) (l : List α) :
    ((x :: l).filter p).length =
      (if p x then 1 else 0) + (l.filter p).length := by
  by_cases h : p x
  · simp [List.filter_cons, h]
    omega
  · simp [List.filter_cons, h]

/-- Each issue lands in exactly one of the eight `CheckType` buckets. -/
lemma checkType_bucket_one (c : CheckType) :
    (CheckType.all.map fun t => if (c == t : Bool) then 1 else 0).sum = 1 := by
  cases c <;> rfl

/-- Each issue lands in exactly one of the three `Severity` buckets. -/
lemma severity_bucket_one (s : Severity) :
    (Severity.all.map fun t => if (s == t : Bool) then 1 else 0).sum = 1 := by
  cases s <;> rfl

/-- The eight per-type bucket counts sum to the issue count. -/
lemma typeBuckets_sum (issues : List AccessibilityIssue) :
    (CheckType.all.map fun t =>
      (issues.filter fun issue => issue.type == t).length).sum =
      issues.length := by
  induction issues with
  | nil => rfl
  | cons issue rest ih =>
    have hsplit :
        (CheckType.all.map fun t =>
          ((issue :: rest).filter fun i => i.type == t).length) =
        CheckType.all.map fun t =>
          (if (issue.type == t : Bool) then 1 else 0) +
            (rest.filter fun i => i.type == t).length := by
      apply List.map_congr_left
      intro t _
      exact filter_count_cons _ _ _
    rw [hsplit, sum_map_split, checkType_bucket_one, ih]
    simp [Nat.add_comm]

/-- The three per-severity bucket counts sum to the issue count. -/
lemma severityBuckets_sum (issues : List AccessibilityIssue) :
    (Severity.all.map fun s =>
      (issues.filter fun issue => issue.severity == s).length).sum =
      issues.length := by
  induction issues with
  | nil => rfl
  | cons issue rest ih =>
    have hsplit :
        (Severity.all.map fun s =>
          ((issue :: rest).filter fun i => i.severity == s).length) =
        Severity.all.map fun s =>
          (if (issue.severity == s : Bool) then 1 else 0) +
            (rest.filter fun i => i.severity == s).length := by
      apply List.map_congr_left
      intro s _
      exact filter_count_cons _ _ _
    rw [hsplit, sum_map_split, severity_bucket_one, ih]
    simp [Nat.add_comm]

/-! Claims. -/

/-- C1: `calculateScore` returns `max 0 (100 − Σ weights)` with weights
error = 10 / warning = 5 / info = 1, yields exactly 100 on the empty list,
and is invariant under permutation of the input (it depends only on the
multiset of severities). -/
theorem calculateScore_correct :
    (∀ issues : List AccessibilityIssue,
        calculateScore issues =
          max 0 (100 - (issues.map fun issue => severityWeight issue.severity).sum)) ∧
    calculateScore [] = 100 ∧
    (∀ issues issues' : List AccessibilityIssue, issues.Perm issues' →
        calculateScore issues = calculateScore issues') := by
  refine ⟨calculateScore_eq, rfl, ?_⟩
  intro issues issues' hperm
  rw [calculateScore_eq, calculateScore_eq,
    (hperm.map fun issue => severityWeight issue.severity).sum_eq]

/-- Witness for C1: the permutation conjunct applied to a concrete swapped
pair of issues. -/
theorem calculateScore_correct_witness :
    calculateScore [sampleIssue .error, sampleIssue .warning] =
      calculateScore [sampleIssue .warning, sampleIssue .error] :=
  calculateScore_correct.2.2 _ _ (List.Perm.swap _ _ _)

/-- C3: the compliance-map entry a page check computes for level `L` is
`true` iff no issue of the page has severity `error` together with
`wcagLevel = L`. -/
theorem wcagCompliance_iff (url : String) (duration : Int)
    (issues : List AccessibilityIssue) (level : WcagLevel) :
    (buildPageReport url duration issues).wcagCompliance level = true ↔
      ∀ issue ∈ issues,
        ¬(issue.severity = Severity.error ∧ issue.wcagLevel = level) := by
  show isWcagCompliant issues level = true ↔ _
  unfold isWcagCompliant
  simp only [Bool.not_eq_true', List.any_eq_false, Bool.and_eq_true, beq_iff_eq,
    not_and]
  constructor
  · intro h issue hmem
    have := h issue hmem
    tauto
  · intro h issue hmem
    have := h issue hmem
    tauto

/-- Witness for C3: the backward direction at a concrete issue list — a
warning-severity issue at level A leaves level A compliant. -/
theorem wcagCompliance_iff_witness :
    (buildPageReport "https://example.com" 0
      [sampleIssue .warning]).wcagCompliance .A = true :=
  (wcagCompliance_iff "https://example.com" 0 [sampleIssue .warning] .A).mpr
    (by
      intro issue hmem
      simp only [List.mem_singleton] at hmem
      subst hmem
      intro hcontra
      cases hcontra.1)

/-- C5: a checker type listed in `checks.disabled` is never run, even when it
is also listed in `checks.enabled`; the checkers run by a page check are
exactly the registry entries whose type is enabled and not disabled. -/
theorem enabledCheckers_spec (config : HealthCheckConfig) :
    (∀ checker ∈ enabledCheckers config,
        checker.type ∉ config.checksDisabled) ∧
    (∀ checker ∈ ALL_CHECKERS,
        (checker ∈ enabledCheckers config ↔
          checker.type ∈ config.checksEnabled ∧
            checker.type ∉ config.checksDisabled)) := by
  constructor
  · intro checker hmem
    rw [enabledCheckers, List.mem_filter] at hmem
    have h2 := hmem.2
    simp only [Bool.and_eq_true, Bool.not_eq_true', List.contains,
      List.elem_eq_mem, decide_eq_false_iff_not] at h2
    exact h2.2
  · intro checker hreg
    rw [enabledCheckers, List.mem_filter]
    simp only [Bool.and_eq_true, Bool.not_eq_true', List.contains,
      List.elem_eq_mem, decide_eq_true_eq, decide_eq_false_iff_not]
    tauto

/-- Witness for C5: with every type enabled and none disabled, the alt-text
registry entry runs — in particular its type is not among the disabled. -/
theorem enabledCheckers_spec_witness :
    (⟨CheckType.altText, altTextCheck⟩ : AccessibilityChecker).type ∉
      sampleConfig.checksDisabled :=
  (enabledCheckers_spec sampleConfig).1 _
    ((enabledCheckers_spec sampleConfig).2 _ (by simp [ALL_CHECKERS]) |>.mpr
      (by simp [sampleConfig, CheckType.all]))

/-- C6: `createAccessibilityIssue` resolves the WCAG clause from the static
table — when a clause is registered the issue carries it together with the
derived understanding URL, when the entry is `null` the issue carries the
sentinel `"N/A"` and no help URL — and the entry is `null` exactly for
color-contrast at level A. -/
theorem createIssue_wcag (issueId : String) (type : CheckType)
    (severity : Severity) (level : WcagLevel) (message description : String)
    (element : Option String) (xpath suggestedFix : Option String) :
    (∀ clause, WCAG_REFERENCES type level = some clause →
        (createAccessibilityIssue issueId type severity level message
          description element xpath suggestedFix).wcagReference = clause ∧
        (createAccessibilityIssue issueId type severity level message
          description element xpath suggestedFix).helpUrl =
          some ("https://www.w3.org/WAI/WCAG21/Understanding/" ++ clause
            ++ ".html")) ∧
    (WCAG_REFERENCES type level = none →
        (createAccessibilityIssue issueId type severity level message
          description element xpath suggestedFix).wcagReference = "N/A" ∧
        (createAccessibilityIssue issueId type severity level message
          description element xpath suggestedFix).helpUrl = none) ∧
    (WCAG_REFERENCES type level = none ↔
        type = CheckType.colorContrast ∧ level = WcagLevel.A) := by
  refine ⟨?_, ?_, ?_⟩
  · intro clause hclause
    simp [createAccessibilityIssue, getWcagReference, getWcagUrl, hclause]
  · intro hnone
    simp [createAccessibilityIssue, getWcagReference, hnone]
  · cases type <;> cases level <;> simp [WCAG_REFERENCES]

/-- Witness for C6: the `null` branch at the one `null` table entry,
color-contrast at level A. -/
theorem createIssue_wcag_witness :
    (createAccessibilityIssue "issue-1" .colorContrast .error .A "m" "d"
      none none none).wcagReference = "N/A" ∧
    (createAccessibilityIssue "issue-1" .colorContrast .error .A "m" "d"
      none none none).helpUrl = none :=
  (createIssue_wcag "issue-1" .colorContrast .error .A "m" "d"
    none none none).2.1 rfl

/-- C7: every page report has all eight checker-type buckets (zero-filled for
types without issues), the type-bucket counts sum to `totalIssues`, the
severity-bucket counts sum to `totalIssues`, and `totalIssues` is the length
of the report's issue sequence. -/
theorem pageReport_buckets (url : String) (duration : Int)
    (allIssues : List AccessibilityIssue) :
    ((buildPageReport url duration allIssues).issuesByType.map Prod.fst =
        CheckType.all) ∧
    ((buildPageReport url duration allIssues).issuesByType.length = 8) ∧
    (((buildPageReport url duration allIssues).issuesByType.map Prod.snd).sum =
        (buildPageReport url duration allIssues).totalIssues) ∧
    (((buildPageReport url duration allIssues).issuesBySeverity.map
        Prod.snd).sum = (buildPageReport url duration allIssues).totalIssues) ∧
    ((buildPageReport url duration allIssues).totalIssues =
        (buildPageReport url duration allIssues).issues.length) ∧
    (∀ t c, (t, c) ∈ (buildPageReport url duration allIssues).issuesByType →
        (∀ issue ∈ allIssues, issue.type ≠ t) → c = 0) := by
  refine ⟨?_, ?_, ?_, ?_, rfl, ?_⟩
  · simp [buildPageReport, List.map_map, Function.comp_def]
  · simp [buildPageReport, CheckType.all]
  · show (List.map Prod.snd (CheckType.all.map fun t =>
      (t, (allIssues.filter fun issue => issue.type == t).length))).sum = _
    rw [List.map_map]
    exact typeBuckets_sum allIssues
  · show (List.map Prod.snd (Severity.all.map fun s =>
      (s, (allIssues.filter fun issue => issue.severity == s).length))).sum = _
    rw [List.map_map]
    exact severityBuckets_sum allIssues
  · intro t c hmem hnone
    simp only [buildPageReport, List.mem_map, Prod.mk.injEq] at hmem
    obtain ⟨t0, _, ht0, hc⟩ := hmem
    subst ht0
    rw [← hc, List.length_eq_zero, List.filter_eq_nil_iff]
    intro issue hmem
    simpa using hnone issue hmem

/-- Witness for C7: at a concrete one-issue report, the type-bucket counts
sum to `totalIssues`, and the zero-fill conjunct applied to the form-labels
bucket of that report yields zero. -/
theorem pageReport_buckets_witness :
    ((buildPageReport "https://example.com" 0
        [sampleIssue .error]).issuesByType.map Prod.snd).sum =
      (buildPageReport "https://example.com" 0
        [sampleIssue .error]).totalIssues ∧
    (0 : Nat) = 0 :=
  ⟨(pageReport_buckets "https://example.com" 0 [sampleIssue .error]).2.2.1,
   (pageReport_buckets "https://example.com" 0 [sampleIssue .error]).2.2.2.2.2
      CheckType.formLabels 0
      (by decide)
      (by
        intro issue hmem
        simp only [List.mem_singleton] at hmem
        subst hmem
        simp [sampleIssue, createAccessibilityIssue])⟩

/-- C2 counterexample: with one enabled checker out of three throwing, the
page check does not succeed — `Promise.all` rejects and `checkPage` fails
with the checker's error instead of producing a report with the remaining
checkers' issues. -/
theorem checkPage_throw_cex :
    checkPage "https://example.com" 0
        [.ok sampleResultA, .error "checker threw", .ok sampleResultB] =
      .error "checker threw" ∧
    (checkPage "https://example.com" 0
        [.ok sampleResultA, .error "checker threw",
          .ok sampleResultB]).toOption = none :=
  ⟨rfl, rfl⟩

/-- C2 (amended): if exactly one enabled checker's `check` call throws during
a page check, the page check fails — the error propagates through
`Promise.all` and no `PageHealthReport` is produced. -/
theorem checkPage_throw_propagates (url : String) (duration : Int)
    (pre post : List (Except String CheckerResult)) (e : String)
    (h : ∀ x ∈ pre, ∃ r, x = .ok r) :
    checkPage url duration (pre ++ .error e :: post) = .error e := by
  have hall : promiseAll (pre ++ .error e :: post) = .error e := by
    induction pre with
    | nil => rfl
    | cons x xs ih =>
      obtain ⟨r, hr⟩ := h x (List.mem_cons_self x xs)
      subst hr
      have := ih fun y hy => h y (List.mem_cons_of_mem _ hy)
      simp only [List.cons_append, promiseAll, List.append_eq, this]
      rfl
  unfold checkPage
  rw [hall]
  rfl

/-- Witness for C2's amended theorem at a concrete run with one good and one
throwing checker. -/
theorem checkPage_throw_witness :
    checkPage "https://a.test" 1 [.ok sampleResultB, .error "boom"] =
      .error "boom" :=
  checkPage_throw_propagates "https://a.test" 1 [.ok sampleResultB] [] "boom"
    (by
      intro x hx
      simp only [List.mem_singleton] at hx
      exact ⟨sampleResultB, hx⟩)

/-- C9: each of the four fixed-level checkers stamps every issue it raises
with level A, independently of the configuration; the color-contrast checker
stamps every issue with the run's configured target level.  Changing the
configured level therefore changes only color-contrast issues. -/
theorem checker_wcagLevel (config config' : HealthCheckConfig)
    (findings : List (String × RawFinding)) (duration : Int) :
    (∀ issue ∈ (altTextCheck config findings duration).issues,
        issue.wcagLevel = WcagLevel.A) ∧
    (∀ issue ∈ (headingStructureCheck config findings duration).issues,
        issue.wcagLevel = WcagLevel.A) ∧
    (∀ issue ∈ (ariaAttributesCheck config findings duration).issues,
        issue.wcagLevel = WcagLevel.A) ∧
    (∀ issue ∈ (formLabelsCheck config findings duration).issues,
        issue.wcagLevel = WcagLevel.A) ∧
    (∀ issue ∈ (colorContrastCheck config findings duration).issues,
        issue.wcagLevel = config.wcagLevel) ∧
    (altTextCheck config findings duration =
        altTextCheck config' findings duration) ∧
    (headingStructureCheck config findings duration =
        headingStructureCheck config' findings duration) ∧
    (ariaAttributesCheck config findings duration =
        ariaAttributesCheck config' findings duration) ∧
    (formLabelsCheck config findings duration =
        formLabelsCheck config' findings duration) := by
  refine ⟨?_, ?_, ?_, ?_, ?_, rfl, rfl, rfl, rfl⟩ <;>
    · intro issue hmem
      simp only [altTextCheck, headingStructureCheck, ariaAttributesCheck,
        formLabelsCheck, colorContrastCheck, List.mem_map] at hmem
      obtain ⟨idf, _, hissue⟩ := hmem
      subst hissue
      rfl

/-- Witness for C9: a concrete color-contrast issue carries the run's AAA
target level. -/
theorem checker_wcagLevel_witness :
    ∃ issue ∈ (colorContrastCheck sampleConfigAAA
        [("issue-2", sampleFinding)] 0).issues,
      issue.wcagLevel = sampleConfigAAA.wcagLevel := by
  refine ⟨createAccessibilityIssue "issue-2" .colorContrast .warning
    sampleConfigAAA.wcagLevel sampleFinding.message sampleFinding.description
    sampleFinding.element none sampleFinding.suggestedFix, ?_, ?_⟩
  · simp [colorContrastCheck, sampleFinding]
  · exact (checker_wcagLevel sampleConfigAAA sampleConfig
      [("issue-2", sampleFinding)] 0).2.2.2.2.1 _
      (by simp [colorContrastCheck, sampleFinding])

/-- Unfolding: chunking the empty list yields no chunks, at any fuel. -/
lemma chunkArrayGo_nil {α : Type} (k fuel : Nat) :
    chunkArrayGo (α := α) k fuel [] = [] := by
  cases fuel <;> rfl

/-- Unfolding: one iteration of the chunking loop on a non-empty list. -/
lemma chunkArrayGo_cons {α : Type} (k fuel : Nat) (x : α) (xs : List α) :
    chunkArrayGo k (fuel + 1) (x :: xs) =
      (x :: xs).take k :: chunkArrayGo k fuel ((x :: xs).drop k) := rfl

/-- With chunk size ≥ 1 and enough fuel, the chunks concatenate back to the
input list. -/
lemma chunkArrayGo_flatten {α : Type} (k : Nat) (hk : 1 ≤ k) :
    ∀ (fuel : Nat) (l : List α), l.length ≤ fuel →
      (chunkArrayGo k fuel l).flatten = l := by
  intro fuel
  induction fuel with
  | zero =>
    intro l hl
    rw [Nat.le_zero, List.length_eq_zero] at hl
    subst hl
    rfl
  | succ fuel ih =>
    intro l hl
    cases l with
    | nil => rfl
    | cons x xs =>
      rw [chunkArrayGo_cons, List.flatten_cons, ih ((x :: xs).drop k) ?_,
        List.take_append_drop]
      rw [List.length_drop]
      simp only [List.length_cons] at hl ⊢
      omega

/-- With chunk size ≥ 1, every chunk is non-empty and no chunk exceeds the
chunk size. -/
lemma chunkArrayGo_sizes {α : Type} (k : Nat) (hk : 1 ≤ k) :
    ∀ (fuel : Nat) (l : List α) (c : List α), c ∈ chunkArrayGo k fuel l →
      c.length ≤ k ∧ c ≠ [] := by
  intro fuel
  induction fuel with
  | zero =>
    intro l c hc
    cases l <;> simp [chunkArrayGo] at hc
  | succ fuel ih =>
    intro l c hc
    cases l with
    | nil => simp [chunkArrayGo_nil] at hc
    | cons x xs =>
      rw [chunkArrayGo_cons, List.mem_cons] at hc
      rcases hc with hc | hc
      · subst hc
        constructor
        · simp [List.length_take]
        · have : 0 < ((x :: xs).take k).length := by
            rw [List.length_take]
            simp only [List.length_cons]
            omega
          intro hnil
          rw [hnil] at this
          exact absurd this (by simp)
      · exact ih _ _ hc

/-- Every chunk except possibly the last has length exactly the chunk
size. -/
lemma chunkArrayGo_dropLast {α : Type} (k : Nat) :
    ∀ (fuel : Nat) (l : List α) (c : List α),
      c ∈ (chunkArrayGo k fuel l).dropLast → c.length = k := by
  intro fuel
  induction fuel with
  | zero =>
    intro l c hc
    cases l <;> simp [chunkArrayGo] at hc
  | succ fuel ih =>
    intro l c hc
    cases l with
    | nil => simp [chunkArrayGo_nil] at hc
    | cons x xs =>
      rw [chunkArrayGo_cons] at hc
      rcases h : chunkArrayGo k fuel ((x :: xs).drop k) with _ | ⟨c2, rest⟩
      · rw [h] at hc
        simp at hc
      · rw [h, List.dropLast_cons₂, List.mem_cons] at hc
        rcases hc with hc | hc
        · subst hc
          have hne : (x :: xs).drop k ≠ [] := by
            intro hdrop
            rw [hdrop, chunkArrayGo_nil] at h
            exact List.noConfusion h
          rw [List.length_take]
          have : k < (x :: xs).length := by
            by_contra hcon
            rw [not_lt] at hcon
            exact hne (List.drop_eq_nil_of_le hcon)
          omega
        · exact ih ((x :: xs).drop k) c (by rw [h]; exact hc)

/-- C4: with any concurrency limit ≥ 1, `chunkArray` partitions the URL list
into consecutive batches whose concatenation is the input, every batch except
possibly the last has size exactly the limit (and no batch is empty or
oversized), and the sequentially-collected `pages` sequence of a `checkUrls`
run equals the input-order audit of the URLs. -/
theorem checkUrls_batching (audit : String → PageHealthReport)
    (urls : List String) (concurrent : Nat) (hc : 1 ≤ concurrent) :
    ((chunkArray urls concurrent).flatten = urls) ∧
    (∀ chunk ∈ (chunkArray urls concurrent).dropLast,
        chunk.length = concurrent) ∧
    (∀ chunk ∈ chunkArray urls concurrent,
        chunk.length ≤ concurrent ∧ chunk ≠ []) ∧
    (checkUrlsPages audit urls concurrent = urls.map audit) := by
  have hflat := chunkArrayGo_flatten concurrent hc urls.length urls le_rfl
  refine ⟨hflat, ?_, ?_, ?_⟩
  · intro chunk hchunk
    exact chunkArrayGo_dropLast concurrent urls.length urls chunk hchunk
  · intro chunk hchunk
    exact chunkArrayGo_sizes concurrent hc urls.length urls chunk hchunk
  · unfold checkUrlsPages chunkArray
    rw [← List.map_flatten, hflat]

/-- Witness for C4 at five URLs and concurrency 2: batches (2, 2, 1) whose
concatenation and audit order match the input. -/
theorem checkUrls_batching_witness :
    (chunkArray ["u1", "u2", "u3", "u4", "u5"] 2).flatten =
        ["u1", "u2", "u3", "u4", "u5"] ∧
      chunkArray ["u1", "u2", "u3", "u4", "u5"] 2 =
        [["u1", "u2"], ["u3", "u4"], ["u5"]] :=
  ⟨(checkUrls_batching (fun u => buildPageReport u 0 [])
      ["u1", "u2", "u3", "u4", "u5"] 2 (by decide)).1, rfl⟩

/-- C8: a `checkUrls` run tears the browser session down on every exit path
(value or rethrown error, including reporter failure) — the manager is
unlaunched when control returns; a `checkUrl` run leaves the session launched
for reuse. -/
theorem session_teardown :
    (∀ (bm : BrowserManager) (config : HealthCheckConfig)
        (audit : String → Except String PageHealthReport)
        (reporterOutcome : Except String Unit) (urls : List String),
        ((checkUrlsRun bm config audit reporterOutcome urls).2).isLaunched =
          false) ∧
    (∀ (bm : BrowserManager)
        (audit : String → Except String PageHealthReport) (url : String),
        ((checkUrlRun bm audit url).2).isLaunched = true) := by
  constructor
  · intro bm config audit reporterOutcome urls
    rfl
  · intro bm audit url
    show (if bm.isLaunched then bm else bm.launch).isLaunched = true
    by_cases h : bm.isLaunched = true
    · simp [h]
    · simp only [h, if_neg]
      simp [BrowserManager.launch, BrowserManager.isLaunched]

/-- Witness for C8: a concrete failing run (both the audit and the reporter
reject) still ends with the session torn down. -/
theorem session_teardown_witness :
    ((checkUrlsRun ⟨true, true⟩ sampleConfig (fun _ => .error "nav failed")
        (.error "disk full") ["https://example.com"]).2).isLaunched = false :=
  session_teardown.1 ⟨true, true⟩ sampleConfig (fun _ => .error "nav failed")
    (.error "disk full") ["https://example.com"]

/-- C10: the `chunkArray` loop index `i` (starting at 0, incremented by
`chunkSize` per iteration) leaves the loop for every input once the chunk
size is at least 1, while for chunk size 0 or negative on a non-empty array
the index never advances past 0, the guard `i < array.length` always holds,
and the loop never terminates — so `checkUrls` termination needs
`config.concurrent ≥ 1`. -/
theorem chunkLoop_termination (len chunkSize : Int) :
    (1 ≤ chunkSize → chunkLoopTerminates len chunkSize) ∧
    (chunkSize ≤ 0 → 0 < len →
      (∀ n : Nat, chunkLoopIndex chunkSize n ≤ 0) ∧
        ¬ chunkLoopTerminates len chunkSize) := by
  constructor
  · intro hk
    refine ⟨len.toNat, ?_⟩
    unfold chunkLoopIndex
    rw [not_lt]
    calc len ≤ (len.toNat : Int) := Int.self_le_toNat len
      _ = (len.toNat : Int) * 1 := by ring
      _ ≤ (len.toNat : Int) * chunkSize :=
          mul_le_mul_of_nonneg_left hk (Int.ofNat_nonneg _)
  · intro hk hlen
    have hidx : ∀ n : Nat, chunkLoopIndex chunkSize n ≤ 0 := by
      intro n
      unfold chunkLoopIndex
      have hn : (0 : Int) ≤ (n : Int) := Int.ofNat_nonneg n
      nlinarith
    refine ⟨hidx, ?_⟩
    rintro ⟨n, hn⟩
    exact hn (lt_of_le_of_lt (hidx n) hlen)

/-- Witness for C10: with chunk size 2 the loop over a length-5 array
terminates, and with chunk size 0 over the same array it does not. -/
theorem chunkLoop_termination_witness :
    chunkLoopTerminates 5 2 ∧ ¬ chunkLoopTerminates 5 0 :=
  ⟨(chunkLoop_termination 5 2).1 (by norm_num),
   ((chunkLoop_termination 5 0).2 (by norm_num) (by norm_num)).2⟩

end Accessibility
